import Mathlib

/-!
Verification of the CodeGenesis-AI generation orchestrator.

Shallow embedding of the repository's data model (types module), the
Gemini service layer (`generateUnitTestsStream`, `analyzeCodeWithGemini`),
and the `AiUnitTestGenerator` component logic (`handleGenerate`,
`cleanCodeForDownload`).  Asynchronous provider calls are modelled by an
explicit outcome value (the ordered list of fragments the stream yields,
or the failure the SDK raises); the rest of the code is pure and is
translated directly.
-/

namespace CodeGenesis

/-! ### Data model (types module) -/

inductive AiModelProvider where
  | geminiFlash
  | geminiPro
  | gpt4Turbo
  | claude3Opus
  deriving DecidableEq

/-- The string value of each `AiModelProvider` enum member. -/
def AiModelProvider.id : AiModelProvider → String
  | .geminiFlash => "gemini-flash"
  | .geminiPro => "gemini-pro"
  | .gpt4Turbo => "gpt-4-turbo"
  | .claude3Opus => "claude-3-opus"

inductive TestFramework where
  | jest
  | reactTestingLibrary
  | vitest
  | mocha
  | cypress
  | playwright
  | pytest
  deriving DecidableEq

/-- The string value of each `TestFramework` enum member. -/
def TestFramework.id : TestFramework → String
  | .jest => "jest"
  | .reactTestingLibrary => "react-testing-library"
  | .vitest => "vitest"
  | .mocha => "mocha"
  | .cypress => "cypress"
  | .playwright => "playwright"
  | .pytest => "pytest"

inductive AssertionLibrary where
  | expect
  | chai
  | assertLib
  deriving DecidableEq

/-- The string value of each `AssertionLibrary` enum member. -/
def AssertionLibrary.id : AssertionLibrary → String
  | .expect => "expect"
  | .chai => "chai"
  | .assertLib => "assert"

inductive TestType where
  | unit
  | integration
  | e2e
  | snapshot
  | security
  deriving DecidableEq

inductive CodeLanguage where
  | typescript
  | javascript
  | python
  | java
  | csharp
  deriving DecidableEq

/-- The string value of each `CodeLanguage` enum member. -/
def CodeLanguage.id : CodeLanguage → String
  | .typescript => "typescript"
  | .javascript => "javascript"
  | .python => "python"
  | .java => "java"
  | .csharp => "csharp"

inductive GenerationStrategy where
  | coverageOptimized
  | behavioral
  | adversarial
  | hybrid
  deriving DecidableEq

/-- The string value of each `GenerationStrategy` enum member. -/
def GenerationStrategy.id : GenerationStrategy → String
  | .coverageOptimized => "coverage_optimized"
  | .behavioral => "behavioral"
  | .adversarial => "adversarial"
  | .hybrid => "hybrid"

inductive RiskLevel where
  | critical
  | high
  | medium
  | low
  | informational
  deriving DecidableEq

structure AiModelConfig where
  provider : AiModelProvider
  modelName : String
  temperature : ℚ
  topP : ℚ
  maxTokens : ℕ

structure TestGenerationOptions where
  targetFramework : TestFramework
  assertionLibrary : AssertionLibrary
  codeLanguage : CodeLanguage
  testTypes : List TestType
  includeMocks : Bool
  includeStubs : Bool
  generateEdgeCases : Bool
  generateNegativeTests : Bool
  aiModelConfig : AiModelConfig
  generationStrategy : GenerationStrategy
  customPromptInstructions : Option String

structure PotentialBug where
  description : String
  line : ℚ
  severity : RiskLevel
  deriving DecidableEq

structure SecurityVulnerability where
  description : String
  cveId : Option String
  severity : RiskLevel
  deriving DecidableEq

structure DependencyVulnerability where
  cveId : String
  severity : RiskLevel
  deriving DecidableEq

structure DependencyInfo where
  name : String
  version : String
  vulnerabilities : Option (List DependencyVulnerability)
  deriving DecidableEq

structure CoverageEstimate where
  lines : ℚ
  branches : ℚ
  functions : ℚ
  total : ℚ
  deriving DecidableEq

structure ExternalReportUrl where
  tool : String
  url : String
  deriving DecidableEq

structure CodeAnalysisReport where
  complexityScore : ℚ
  readabilityScore : ℚ
  maintainabilityIndex : ℚ
  potentialBugs : List PotentialBug
  securityVulnerabilities : List SecurityVulnerability
  dependencies : List DependencyInfo
  testCoverageEstimate : CoverageEstimate
  suggestedImprovements : List String
  externalReportUrls : Option (List ExternalReportUrl)
  deriving DecidableEq

inductive ArtifactStatus where
  | generated
  | failed
  | processing
  | committed
  | reviewed
  deriving DecidableEq

inductive ReviewStatus where
  | pending
  | approved
  | rejected
  deriving DecidableEq

structure GeneratedTestArtifact where
  id : String
  timestamp : String
  sourceCode : String
  generatedTests : String
  optionsUsed : TestGenerationOptions
  aiResponseMetadata : List (String × String)
  status : ArtifactStatus
  reviewStatus : Option ReviewStatus

/-! ### String utilities

`jsIncludes` embeds JavaScript `String.prototype.includes`: the needle
occurs as a contiguous substring of the haystack. -/

/-- Boolean test that the first list is a leading segment of the second. -/
def listIsPrefixOf : List Char → List Char → Bool
  | [], _ => true
  | _ :: _, [] => false
  | a :: as, b :: bs => a == b && listIsPrefixOf as bs

/-- Boolean contiguous-substring test, scanning every start position. -/
def listContainsSub (needle : List Char) : List Char → Bool
  | [] => listIsPrefixOf needle []
  | b :: bs => listIsPrefixOf needle (b :: bs) || listContainsSub needle bs

/-- JavaScript `haystack.includes(needle)`. -/
def jsIncludes (s sub : String) : Bool := listContainsSub sub.data s.data

/-- `sub` occurs contiguously inside `hay` (propositional form). -/
def containsStr (hay sub : String) : Prop := sub.data <:+: hay.data

/-! ### Gemini service: streaming test generation -/

/-- Model-id resolution from `generateUnitTestsStream`: start from the
flash model and switch to the pro model when the provider's identifier
contains the substring "pro". -/
def resolveModelName (options : TestGenerationOptions) : String :=
  if jsIncludes options.aiModelConfig.provider.id "pro" then "gemini-3-pro-preview"
  else "gemini-3-flash-preview"

/-- `options.customPromptInstructions || 'None'`: JavaScript `||` falls
through to the placeholder when the field is absent or the empty string. -/
def orNone : Option String → String
  | none => "None"
  | some s => if s = "" then "None" else s

/-- Right-fold concatenation of the ordered parts of a template literal. -/
def concatParts (ps : List String) : String := ps.foldr (fun a b => a ++ b) ""

/-- The ordered parts of the `systemPrompt` template literal of
`generateUnitTestsStream`: fixed text interleaved with the interpolated
option values and conditional clauses. -/
def systemPromptParts (options : TestGenerationOptions) : List String :=
  ["You are CodeGenesis AI, an expert Senior QA Engineer and Software Architect.\n    Your task is to generate comprehensive, production-ready unit tests.\n    \n    Constraints:\n    - Target Framework: ",
   options.targetFramework.id,
   "\n    - Assertion Library: ",
   options.assertionLibrary.id,
   "\n    - Language: ",
   options.codeLanguage.id,
   "\n    - Strategy: ",
   options.generationStrategy.id,
   "\n    \n    Requirements:\n    - ",
   (if options.includeMocks then "Include mocks for external dependencies."
    else "Assume real dependencies where safe."),
   "\n    - ",
   (if options.generateEdgeCases then "Cover edge cases and boundary conditions rigorously."
    else "Focus on happy paths."),
   "\n    - Follow clean code principles (DRY, SOLID).\n    - Output ONLY the code for the test file. Do not include markdown formatting or explanations outside the code block if possible, but standard markdown code blocks are acceptable.\n    \n    Custom Instructions: ",
   orNone options.customPromptInstructions,
   "\n    "]

/-- The `systemPrompt` string of `generateUnitTestsStream`. -/
def buildSystemPrompt (options : TestGenerationOptions) : String :=
  concatParts (systemPromptParts options)

/-- The `userPrompt` string of `generateUnitTestsStream`. -/
def buildUserPrompt (code : String) : String :=
  "Generate unit tests for the following code:\n\n" ++ code

/-- The single text sent to the model: `systemPrompt + "\n\n" + userPrompt`. -/
def fullPrompt (code : String) (options : TestGenerationOptions) : String :=
  buildSystemPrompt options ++ "\n\n" ++ buildUserPrompt code

/-- The error message thrown by `generateUnitTestsStream` on any SDK or
transport failure. -/
def streamErrorMessage : String :=
  "Failed to generate tests via Gemini API. Please check your API key."

/-- Outcome of the provider's streaming call: the ordered chunks it
delivers (each chunk's `text` may be absent), or a raised failure. -/
inductive StreamOutcome where
  | ok (chunks : List (Option String))
  | apiError

/-- `generateUnitTestsStream` as a function of the provider outcome: on
success it yields `chunk.text || ''` for each chunk in order; on failure
it throws the fixed user-facing error message. -/
def generateUnitTestsStream (outcome : StreamOutcome) : Except String (List String) :=
  match outcome with
  | .ok chunks => .ok (chunks.map (fun c => c.getD ""))
  | .apiError => .error streamErrorMessage

/-! ### Gemini service: one-shot code analysis -/

/-- The fields of the JSON document the analysis call asks the provider
for (the `AnalysisReport` shape minus the two locally-filled fields). -/
structure AnalysisData where
  complexityScore : ℚ
  readabilityScore : ℚ
  maintainabilityIndex : ℚ
  potentialBugs : List PotentialBug
  securityVulnerabilities : List SecurityVulnerability
  suggestedImprovements : List String
  testCoverageEstimate : CoverageEstimate

/-- Outcome of the one-shot analysis call: the SDK call throws, the
response text is empty, `JSON.parse` throws, or a parsed document. -/
inductive AnalysisCallOutcome where
  | apiError
  | emptyResponse
  | malformedJson
  | parsed (data : AnalysisData)

/-- The fallback report literal returned by `analyzeCodeWithGemini` when
anything in the try-block throws.  Its object literal carries no
`externalReportUrls` entry, so that optional field is absent. -/
def fallbackReport : CodeAnalysisReport :=
  { complexityScore := 0
    readabilityScore := 0
    maintainabilityIndex := 0
    potentialBugs := [{ description := "Analysis failed", line := 0, severity := RiskLevel.low }]
    securityVulnerabilities := []
    dependencies := []
    testCoverageEstimate := { lines := 0, branches := 0, functions := 0, total := 0 }
    suggestedImprovements := ["Check API Key", "Ensure code is valid"]
    externalReportUrls := none }

/-- `analyzeCodeWithGemini` as a function of the call outcome.  On a
parsed response it spreads the data and overrides `dependencies` and
`externalReportUrls` with empty lists; every failure path lands in the
catch-block and returns the fallback report (never an exception). -/
def analyzeCodeWithGemini (outcome : AnalysisCallOutcome) : CodeAnalysisReport :=
  match outcome with
  | .parsed data =>
      { complexityScore := data.complexityScore
        readabilityScore := data.readabilityScore
        maintainabilityIndex := data.maintainabilityIndex
        potentialBugs := data.potentialBugs
        securityVulnerabilities := data.securityVulnerabilities
        dependencies := []
        testCoverageEstimate := data.testCoverageEstimate
        suggestedImprovements := data.suggestedImprovements
        externalReportUrls := some [] }
  | _ => fallbackReport

/-! ### Component: options construction (`handleGenerate` lines 112-130) -/

/-- The UI selections `handleGenerate` reads when building its options. -/
structure UiSelections where
  selectedTestFramework : TestFramework
  selectedAssertionLibrary : AssertionLibrary
  selectedCodeLanguage : CodeLanguage
  selectedTestTypes : List TestType
  includeMocks : Bool
  generateEdgeCases : Bool
  selectedAiModel : AiModelProvider
  generationStrategy : GenerationStrategy
  customPrompt : String

/-- The `options` object literal built at the top of `handleGenerate`. -/
def buildOptions (ui : UiSelections) : TestGenerationOptions :=
  { targetFramework := ui.selectedTestFramework
    assertionLibrary := ui.selectedAssertionLibrary
    codeLanguage := ui.selectedCodeLanguage
    testTypes := ui.selectedTestTypes
    includeMocks := ui.includeMocks
    includeStubs := false
    generateEdgeCases := ui.generateEdgeCases
    generateNegativeTests := ui.generateEdgeCases
    aiModelConfig :=
      { provider := ui.selectedAiModel
        modelName := ui.selectedAiModel.id
        temperature := (0.7 : ℚ)
        topP := (0.95 : ℚ)
        maxTokens := 4096 }
    generationStrategy := ui.generationStrategy
    customPromptInstructions := some ui.customPrompt }

/-! ### Component: stream consumption loop -/

/-- The successive values of `fullResponse` published via `setTests`
inside the `for await` loop: one buffer per fragment, each obtained by
appending the new fragment to the previous buffer. -/
def accumulate (acc : String) : List String → List String
  | [] => []
  | c :: cs => (acc ++ c) :: accumulate (acc ++ c) cs

/-- The observed buffer sequence of one generation run (loop starts from
the empty `fullResponse`). -/
def publishedBuffers (chunks : List String) : List String := accumulate "" chunks

/-- The final value of `fullResponse` after folding the chunks. -/
def concatChunks (chunks : List String) : String :=
  chunks.foldl (fun a c => a ++ c) ""

/-- One step of the progress heuristic: `prev => Math.min(prev + 5, 95)`. -/
def progressStep (p : ℕ) : ℕ := min (p + 5) 95

/-- Progress value after `k` fragments, starting from
`setGenerationProgress(0)`. -/
def progressAfter : ℕ → ℕ
  | 0 => 0
  | k + 1 => progressStep (progressAfter k)

/-! ### Component: one generation operation (`handleGenerate`) -/

/-- How one run of the consumption loop ends: the stream completed and
delivered these chunks, or it threw after delivering a first portion. -/
inductive GenRun where
  | success (chunks : List String)
  | failure (bufferedChunks : List String) (message : String)

inductive NotificationType where
  | info
  | success
  | warning
  | errorKind
  deriving DecidableEq

/-- The component state touched by `handleGenerate`. -/
structure GenState where
  tests : String
  errorText : String
  generationProgress : ℕ
  generatedArtifactsHistory : List GeneratedTestArtifact

/-- The artifact literal built after a successful stream (lines 146-155):
time-based id and timestamp are passed in as the values `Date.now` and
`new Date().toISOString()` produced. -/
def mkArtifact (artifactId timestamp code : String) (options : TestGenerationOptions)
    (fullResponse : String) : GeneratedTestArtifact :=
  { id := artifactId
    timestamp := timestamp
    sourceCode := code
    generatedTests := fullResponse
    optionsUsed := options
    aiResponseMetadata := []
    status := ArtifactStatus.generated
    reviewStatus := some ReviewStatus.pending }

/-- `handleGenerate` as a state transformer: resets error/tests/progress,
builds the options, consumes the stream, and either records the artifact
and a success notification, or sets the error state and an error
notification, leaving history untouched.  Returns the new state and the
notifications shown by this run. -/
def handleGenerate (st : GenState) (ui : UiSelections) (code artifactId timestamp : String)
    (run : GenRun) : GenState × List (String × NotificationType) :=
  let options := buildOptions ui
  match run with
  | .success chunks =>
      let fullResponse := concatChunks chunks
      ({ st with
          tests := fullResponse
          errorText := ""
          generationProgress := 100
          generatedArtifactsHistory :=
            mkArtifact artifactId timestamp code options fullResponse
              :: st.generatedArtifactsHistory },
       [("Tests generated successfully!", NotificationType.success)])
  | .failure buffered msg =>
      ({ st with
          tests := concatChunks buffered
          errorText := msg
          generationProgress := progressAfter buffered.length
          generatedArtifactsHistory := st.generatedArtifactsHistory },
       [(msg, NotificationType.errorKind)])

/-- All inputs of one generation operation. -/
structure RunInput where
  ui : UiSelections
  code : String
  artifactId : String
  timestamp : String
  run : GenRun

/-- One operation, keeping only the state. -/
def stepGen (st : GenState) (r : RunInput) : GenState :=
  (handleGenerate st r.ui r.code r.artifactId r.timestamp r.run).1

/-- A session: a sequence of generation operations. -/
def runAll (st : GenState) (rs : List RunInput) : GenState := rs.foldl stepGen st

/-- The artifact a run records, when it succeeds. -/
def runArtifact? (r : RunInput) : Option GeneratedTestArtifact :=
  match r.run with
  | .success chunks =>
      some (mkArtifact r.artifactId r.timestamp r.code (buildOptions r.ui) (concatChunks chunks))
  | .failure _ _ => none

/-- The artifacts of the successful runs, in run order. -/
def successArtifacts (rs : List RunInput) : List GeneratedTestArtifact :=
  rs.filterMap runArtifact?

/-- Whether a run succeeded. -/
def isSuccessRun (r : RunInput) : Bool :=
  match r.run with
  | .success _ => true
  | .failure _ _ => false

/-- Number of successful runs in a session. -/
def countSuccesses (rs : List RunInput) : ℕ := (rs.filter isSuccessRun).length

/-- The component's initial state. -/
def initialGenState : GenState :=
  { tests := ""
    errorText := ""
    generationProgress := 0
    generatedArtifactsHistory := [] }

/-! ### Component: download/copy transform (`cleanCodeForDownload`) -/

/-- The backtick character. -/
def tickChar : Char := Char.ofNat 96

/-- A three-backtick fence. -/
def fenceTicks : List Char := [tickChar, tickChar, tickChar]

/-- JavaScript regex `\w`: ASCII letters, digits, underscore. -/
def isWordChar (c : Char) : Bool := c.isAlphanum || c == '_'

/-- `code.replace(/^```(?:\w+\n)?/, '')`: when the text starts with a
fence, drop it plus an optional language tag that is a run of word
characters immediately followed by a newline. -/
def stripLeadingFence (l : List Char) : List Char :=
  if listIsPrefixOf fenceTicks l then
    let rest := l.drop 3
    let tag := rest.takeWhile isWordChar
    if tag.length > 0 && (rest.drop tag.length).head? == some '\n' then
      rest.drop (tag.length + 1)
    else rest
  else l

/-- The text ends with a three-backtick fence. -/
def endsWithTicks (l : List Char) : Bool := listIsPrefixOf fenceTicks l.reverse

/-- `.replace(/```$/, '')`: drop a trailing fence when present. -/
def stripTrailingFence (l : List Char) : List Char :=
  if endsWithTicks l then l.take (l.length - 3) else l

/-- The JavaScript WhiteSpace and LineTerminator characters removed by
`String.prototype.trim`. -/
def jsWhitespace (c : Char) : Bool :=
  ([' ', '\t', '\n', '\r', Char.ofNat 0x0b, Char.ofNat 0x0c, Char.ofNat 0xa0,
    Char.ofNat 0x1680, Char.ofNat 0x2000, Char.ofNat 0x2001, Char.ofNat 0x2002,
    Char.ofNat 0x2003, Char.ofNat 0x2004, Char.ofNat 0x2005, Char.ofNat 0x2006,
    Char.ofNat 0x2007, Char.ofNat 0x2008, Char.ofNat 0x2009, Char.ofNat 0x200a,
    Char.ofNat 0x2028, Char.ofNat 0x2029, Char.ofNat 0x202f, Char.ofNat 0x205f,
    Char.ofNat 0x3000, Char.ofNat 0xfeff]).contains c

/-- Drop leading whitespace. -/
def jsTrimLeft (l : List Char) : List Char := l.dropWhile jsWhitespace

/-- Drop trailing whitespace. -/
def jsTrimRight (l : List Char) : List Char := (l.reverse.dropWhile jsWhitespace).reverse

/-- JavaScript `trim()`. -/
def jsTrim (l : List Char) : List Char := jsTrimRight (jsTrimLeft l)

/-- `cleanCodeForDownload`: strip a leading fence (with optional language
tag), strip a trailing fence, then trim. -/
def cleanCodeForDownload (s : String) : String :=
  String.mk (jsTrim (stripTrailingFence (stripLeadingFence s.data)))


/-! ### Helper lemmas -/

/-- A string occurs inside itself. -/
theorem cRefl (s : String) : containsStr s s :=
  ⟨[], [], by simp⟩

/-- Containment is preserved by appending on the right. -/
theorem cL {a b sub : String} (h : containsStr a sub) : containsStr (a ++ b) sub := by
  obtain ⟨u, v, huv⟩ := h
  exact ⟨u, v ++ b.data, by rw [String.data_append, ← huv]; simp [List.append_assoc]⟩

/-- Containment is preserved by appending on the left. -/
theorem cR {a b sub : String} (h : containsStr b sub) : containsStr (a ++ b) sub := by
  obtain ⟨u, v, huv⟩ := h
  exact ⟨a.data ++ u, v, by rw [String.data_append, ← huv]; simp [List.append_assoc]⟩

/-- Every part of a template literal occurs in its concatenation. -/
theorem mem_concatParts : ∀ (ps : List String) {p : String}, p ∈ ps → containsStr (concatParts ps) p := by
  intro ps
  induction ps with
  | nil => intro p h; cases h
  | cons q ps ih =>
    intro p h
    rcases List.mem_cons.mp h with rfl | hmem
    · show containsStr (p ++ concatParts ps) p
      exact cL (cRefl p)
    · show containsStr (q ++ concatParts ps) p
      exact cR (ih hmem)

/-- The loop publishes one buffer per fragment. -/
theorem accumulate_length (acc : String) (cs : List String) :
    (accumulate acc cs).length = cs.length := by
  induction cs generalizing acc with
  | nil => rfl
  | cons c cs ih => simp [accumulate, ih]

/-- The buffer published after fragment `i` is the running concatenation
of the first `i + 1` fragments onto the starting buffer. -/
theorem accumulate_get : ∀ (cs : List String) (acc : String) (i : ℕ)
    (h : i < (accumulate acc cs).length),
    (accumulate acc cs).get ⟨i, h⟩ = (cs.take (i + 1)).foldl (fun a c => a ++ c) acc := by
  intro cs
  induction cs with
  | nil => intro acc i h; simp [accumulate] at h
  | cons c cs ih =>
    intro acc i h
    cases i with
    | zero => rfl
    | succ j =>
      have hlen : (accumulate acc (c :: cs)).length = (accumulate (acc ++ c) cs).length + 1 := rfl
      have h' : j < (accumulate (acc ++ c) cs).length := by omega
      have e1 : (accumulate acc (c :: cs)).get ⟨j + 1, h⟩
          = (accumulate (acc ++ c) cs).get ⟨j, h'⟩ := rfl
      rw [e1, ih (acc ++ c) j h']
      rfl

/-- Consecutive published buffers extend one another. -/
theorem accumulate_chain : ∀ (cs : List String) (acc : String),
    List.Chain' (fun x y => ∃ t : String, y = x ++ t) (accumulate acc cs) := by
  intro cs
  induction cs with
  | nil => intro acc; simp [accumulate]
  | cons c cs ih =>
    intro acc
    show List.Chain' _ ((acc ++ c) :: accumulate (acc ++ c) cs)
    refine List.chain'_cons'.mpr ⟨?_, ih (acc ++ c)⟩
    intro y hy
    cases cs with
    | nil => simp [accumulate] at hy
    | cons d ds =>
      simp only [accumulate, List.head?] at hy
      simp only [Option.mem_def, Option.some.injEq] at hy
      exact ⟨d, hy.symm⟩

/-- History evolution over a whole session: the successful runs' artifacts
pile up in front of the starting history, most recent first. -/
theorem runAll_history : ∀ (rs : List RunInput) (st : GenState),
    (runAll st rs).generatedArtifactsHistory
      = (successArtifacts rs).reverse ++ st.generatedArtifactsHistory := by
  intro rs
  induction rs with
  | nil => intro st; simp [runAll, successArtifacts]
  | cons r rs ih =>
    intro st
    show (runAll (stepGen st r) rs).generatedArtifactsHistory = _
    rw [ih (stepGen st r)]
    cases hr : r.run with
    | success chunks =>
      have hstep : (stepGen st r).generatedArtifactsHistory
          = mkArtifact r.artifactId r.timestamp r.code (buildOptions r.ui) (concatChunks chunks)
            :: st.generatedArtifactsHistory := by
        simp [stepGen, handleGenerate, hr]
      have hsa : successArtifacts (r :: rs)
          = mkArtifact r.artifactId r.timestamp r.code (buildOptions r.ui) (concatChunks chunks)
            :: successArtifacts rs := by
        simp [successArtifacts, runArtifact?, hr]
      rw [hstep, hsa]
      simp [List.append_assoc]
    | failure buffered msg =>
      have hstep : (stepGen st r).generatedArtifactsHistory = st.generatedArtifactsHistory := by
        simp [stepGen, handleGenerate, hr]
      have hsa : successArtifacts (r :: rs) = successArtifacts rs := by
        simp [successArtifacts, runArtifact?, hr]
      rw [hstep, hsa]

/-- Each successful run contributes exactly one artifact. -/
theorem successArtifacts_length : ∀ rs : List RunInput,
    (successArtifacts rs).length = countSuccesses rs := by
  intro rs
  induction rs with
  | nil => rfl
  | cons r rs ih =>
    cases hr : r.run with
    | success chunks =>
      simp only [successArtifacts, List.filterMap_cons, runArtifact?, hr,
        countSuccesses, List.filter_cons, isSuccessRun]
      simp only [successArtifacts, countSuccesses] at ih
      simp [ih]
    | failure buffered msg =>
      simp only [successArtifacts, List.filterMap_cons, runArtifact?, hr,
        countSuccesses, List.filter_cons, isSuccessRun]
      simp only [successArtifacts, countSuccesses] at ih
      simp [ih]

/-- `progressAfter` never leaves the pre-completion clamp. -/
theorem progressAfter_le (k : ℕ) : progressAfter k ≤ 95 := by
  cases k with
  | zero => simp [progressAfter]
  | succ j => exact min_le_right _ _

/-- `dropWhile` is idempotent. -/
theorem dropWhile_dropWhile_eq (p : Char → Bool) (l : List Char) :
    (l.dropWhile p).dropWhile p = l.dropWhile p := by
  induction l with
  | nil => rfl
  | cons a t ih =>
    cases h : p a with
    | true => simp [List.dropWhile_cons, h, ih]
    | false => simp [List.dropWhile_cons, h]

/-- `dropWhile` never lengthens a list. -/
theorem dropWhile_length_le (p : Char → Bool) (l : List Char) :
    (l.dropWhile p).length ≤ l.length := by
  induction l with
  | nil => simp
  | cons a t ih =>
    cases h : p a with
    | true =>
      simp only [List.dropWhile_cons, h, if_true]
      simp only [List.length_cons]
      omega
    | false => simp [List.dropWhile_cons, h]

/-- Left-trimming is idempotent. -/
theorem jsTrimLeft_jsTrimLeft (l : List Char) : jsTrimLeft (jsTrimLeft l) = jsTrimLeft l :=
  dropWhile_dropWhile_eq _ _

/-- Right-trimming is idempotent. -/
theorem jsTrimRight_jsTrimRight (l : List Char) : jsTrimRight (jsTrimRight l) = jsTrimRight l := by
  simp [jsTrimRight, List.reverse_reverse, dropWhile_dropWhile_eq]

/-- Right-trimming preserves the absence of leading whitespace. -/
theorem jsTrimLeft_jsTrimRight (m : List Char) (h : jsTrimLeft m = m) :
    jsTrimLeft (jsTrimRight m) = jsTrimRight m := by
  obtain ⟨pre, hpre⟩ := List.dropWhile_suffix (l := m.reverse) jsWhitespace
  cases hd : jsTrimRight m with
  | nil => simp [jsTrimLeft]
  | cons a r =>
    have hm : m = (a :: r) ++ pre.reverse := by
      have hrev : m.reverse = pre ++ m.reverse.dropWhile jsWhitespace := hpre.symm
      have : m = (pre ++ m.reverse.dropWhile jsWhitespace).reverse := by
        rw [← hrev, List.reverse_reverse]
      rw [this, List.reverse_append]
      have : (m.reverse.dropWhile jsWhitespace).reverse = a :: r := by
        simpa [jsTrimRight] using hd
      rw [this]
    have ha : jsWhitespace a = false := by
      cases hwa : jsWhitespace a with
      | false => rfl
      | true =>
        exfalso
        have hdrop : jsTrimLeft m = List.dropWhile jsWhitespace (r ++ pre.reverse) := by
          rw [hm]
          simp [jsTrimLeft, List.dropWhile_cons, hwa]
        have hle : (List.dropWhile jsWhitespace (r ++ pre.reverse)).length
            ≤ (r ++ pre.reverse).length := dropWhile_length_le _ _
        have hml : m.length ≤ (r ++ pre.reverse).length := by
          rw [← hdrop] at hle
          rw [h] at hle
          exact hle
        rw [hm] at hml
        simp at hml
    simp [jsTrimLeft, List.dropWhile_cons, ha]

/-- JavaScript `trim` is idempotent. -/
theorem jsTrim_idem (l : List Char) : jsTrim (jsTrim l) = jsTrim l := by
  show jsTrimRight (jsTrimLeft (jsTrimRight (jsTrimLeft l))) = jsTrimRight (jsTrimLeft l)
  rw [jsTrimLeft_jsTrimRight (jsTrimLeft l) (jsTrimLeft_jsTrimLeft l), jsTrimRight_jsTrimRight]

/-- Without a leading fence, the leading strip is the identity. -/
theorem stripLeadingFence_of_not (l : List Char) (h : listIsPrefixOf fenceTicks l = false) :
    stripLeadingFence l = l := by
  simp [stripLeadingFence, h]

/-- Without a trailing fence, the trailing strip is the identity. -/
theorem stripTrailingFence_of_not (l : List Char) (h : endsWithTicks l = false) :
    stripTrailingFence l = l := by
  simp [stripTrailingFence, h]

/-! ### Claim theorems -/

/-- Claim C1: the generation loop concatenates the stream's fragments in
arrival order and publishes the buffer after each fragment; for the
fragments ["a","b","c"] the observed buffer sequence is exactly
["a","ab","abc"], there is one published buffer per fragment, the buffer
published after fragment `i` is the concatenation of the first `i + 1`
fragments, and each published buffer is a prefix of the next. -/
theorem accumulator_buffers_spec :
    publishedBuffers ["a", "b", "c"] = ["a", "ab", "abc"]
    ∧ (∀ chunks : List String, (publishedBuffers chunks).length = chunks.length)
    ∧ (∀ (chunks : List String) (i : ℕ) (h : i < (publishedBuffers chunks).length),
        (publishedBuffers chunks).get ⟨i, h⟩ = concatChunks (chunks.take (i + 1)))
    ∧ (∀ chunks : List String,
        List.Chain' (fun x y => ∃ t : String, y = x ++ t) (publishedBuffers chunks)) := by
  refine ⟨by decide, fun chunks => accumulate_length "" chunks, ?_, fun chunks => accumulate_chain chunks ""⟩
  intro chunks i h
  exact accumulate_get chunks "" i h

/-- Claim C1 witness: the buffer published after the second fragment of
["a","b","c"] is the concatenation of the first two fragments. -/
theorem accumulator_buffers_spec_witness :
    (publishedBuffers ["a", "b", "c"]).get ⟨1, by decide⟩ = concatChunks (["a", "b", "c"].take 2) :=
  accumulator_buffers_spec.2.2.1 ["a", "b", "c"] 1 (by decide)

/-- Claim C2: within one generation operation the progress value starts at
0, advances by the fixed increment 5 clamped at 95 per fragment (exactly
+5 whenever the clamp is not hit), never exceeds 95 before the stream
completes, is monotonically non-decreasing, equals 100 after successful
completion, and stays at most 95 (hence below 100) when the run fails. -/
theorem progress_heuristic_spec :
    progressAfter 0 = 0
    ∧ (∀ k : ℕ, progressAfter (k + 1) = min (progressAfter k + 5) 95)
    ∧ (∀ k : ℕ, progressAfter k ≤ 95)
    ∧ (∀ k : ℕ, progressAfter k ≤ progressAfter (k + 1))
    ∧ (∀ k : ℕ, progressAfter k + 5 ≤ 95 → progressAfter (k + 1) = progressAfter k + 5)
    ∧ (∀ (st : GenState) (ui : UiSelections) (code aid ts : String) (chunks : List String),
        ((handleGenerate st ui code aid ts (GenRun.success chunks)).1).generationProgress = 100)
    ∧ (∀ (st : GenState) (ui : UiSelections) (code aid ts : String)
        (buffered : List String) (msg : String),
        ((handleGenerate st ui code aid ts (GenRun.failure buffered msg)).1).generationProgress
          ≤ 95) := by
  refine ⟨rfl, fun k => rfl, progressAfter_le, ?_, ?_, fun _ _ _ _ _ _ => rfl, ?_⟩
  · intro k
    show progressAfter k ≤ progressStep (progressAfter k)
    exact le_min (Nat.le_add_right _ 5) (progressAfter_le k)
  · intro k hk
    show progressStep (progressAfter k) = progressAfter k + 5
    exact min_eq_left hk
  · intro st ui code aid ts buffered msg
    show progressAfter buffered.length ≤ 95
    exact progressAfter_le buffered.length

/-- Claim C2 witness: at the start of an operation the clamp is not hit,
and the first fragment advances the progress by exactly 5. -/
theorem progress_heuristic_spec_witness :
    progressAfter 0 + 5 ≤ 95 ∧ progressAfter 1 = progressAfter 0 + 5 :=
  ⟨by decide, progress_heuristic_spec.2.2.2.2.1 0 (by decide)⟩

/-- Claim C3: a successful generation operation prepends exactly one new
artifact to the in-memory history, a failed operation leaves the history
unchanged, over a session the successful runs' artifacts accumulate most
recent first, and after a session starting from the initial state the
history length equals the number of successful operations. -/
theorem history_recorder_spec :
    (∀ (st : GenState) (ui : UiSelections) (code aid ts : String) (chunks : List String),
      ((handleGenerate st ui code aid ts (GenRun.success chunks)).1).generatedArtifactsHistory
        = mkArtifact aid ts code (buildOptions ui) (concatChunks chunks)
          :: st.generatedArtifactsHistory)
    ∧ (∀ (st : GenState) (ui : UiSelections) (code aid ts : String)
        (buffered : List String) (msg : String),
      ((handleGenerate st ui code aid ts (GenRun.failure buffered msg)).1).generatedArtifactsHistory
        = st.generatedArtifactsHistory)
    ∧ (∀ (st : GenState) (rs : List RunInput),
        (runAll st rs).generatedArtifactsHistory
          = (successArtifacts rs).reverse ++ st.generatedArtifactsHistory)
    ∧ (∀ rs : List RunInput,
        ((runAll initialGenState rs).generatedArtifactsHistory).length = countSuccesses rs) := by
  refine ⟨fun _ _ _ _ _ _ => rfl, fun _ _ _ _ _ _ _ => rfl,
    fun st rs => runAll_history rs st, ?_⟩
  intro rs
  rw [runAll_history rs initialGenState]
  simp [initialGenState, successArtifacts_length rs]

/-- Claim C4: on every failing analysis call (SDK error, empty response,
or malformed JSON) `analyzeCodeWithGemini` returns — it never throws —
the fixed fallback report: all numeric scores zero, exactly one bug entry
"Analysis failed" at line 0 with Low severity, empty vulnerability and
dependency lists, a zeroed coverage estimate, and exactly the two
suggestions "Check API Key" and "Ensure code is valid". -/
theorem analysis_fallback_spec :
    analyzeCodeWithGemini AnalysisCallOutcome.apiError = fallbackReport
    ∧ analyzeCodeWithGemini AnalysisCallOutcome.emptyResponse = fallbackReport
    ∧ analyzeCodeWithGemini AnalysisCallOutcome.malformedJson = fallbackReport
    ∧ fallbackReport.complexityScore = 0
    ∧ fallbackReport.readabilityScore = 0
    ∧ fallbackReport.maintainabilityIndex = 0
    ∧ fallbackReport.potentialBugs
        = [{ description := "Analysis failed", line := 0, severity := RiskLevel.low }]
    ∧ fallbackReport.securityVulnerabilities = []
    ∧ fallbackReport.dependencies = []
    ∧ fallbackReport.testCoverageEstimate = { lines := 0, branches := 0, functions := 0, total := 0 }
    ∧ fallbackReport.suggestedImprovements = ["Check API Key", "Ensure code is valid"] :=
  ⟨rfl, rfl, rfl, rfl, rfl, rfl, rfl, rfl, rfl, rfl, rfl⟩

/-- Claim C5: on a transport or API failure the streaming call throws the
one fixed message — which tells the user that test generation failed and
to check the API key — and the component run then surfaces exactly one
error notification with that message, records the message as the error
state, and persists no artifact from the partial output. -/
theorem stream_failure_spec :
    generateUnitTestsStream StreamOutcome.apiError = Except.error streamErrorMessage
    ∧ jsIncludes streamErrorMessage "Failed to generate tests" = true
    ∧ jsIncludes streamErrorMessage "check your API key" = true
    ∧ (∀ (st : GenState) (ui : UiSelections) (code aid ts : String) (buffered : List String),
        (handleGenerate st ui code aid ts (GenRun.failure buffered streamErrorMessage)).2
          = [(streamErrorMessage, NotificationType.errorKind)]
        ∧ ((handleGenerate st ui code aid ts
              (GenRun.failure buffered streamErrorMessage)).1).errorText = streamErrorMessage
        ∧ ((handleGenerate st ui code aid ts
              (GenRun.failure buffered streamErrorMessage)).1).generatedArtifactsHistory
          = st.generatedArtifactsHistory) :=
  ⟨rfl, by decide, by decide, fun _ _ _ _ _ _ => ⟨rfl, rfl, rfl⟩⟩

/-- Claim C6: the resolved model identifier is the pro variant exactly
when the selected provider's identifier contains the substring "pro",
and the flash variant otherwise; in particular the gemini-pro provider
resolves to the pro model and gemini-flash to the flash model. -/
theorem model_resolution_spec :
    (∀ options : TestGenerationOptions,
      (resolveModelName options = "gemini-3-pro-preview"
        ↔ jsIncludes options.aiModelConfig.provider.id "pro" = true)
      ∧ (resolveModelName options = "gemini-3-flash-preview"
        ↔ jsIncludes options.aiModelConfig.provider.id "pro" = false))
    ∧ (∀ ui : UiSelections,
        resolveModelName (buildOptions { ui with selectedAiModel := AiModelProvider.geminiPro })
          = "gemini-3-pro-preview"
        ∧ resolveModelName (buildOptions { ui with selectedAiModel := AiModelProvider.geminiFlash })
          = "gemini-3-flash-preview") := by
  constructor
  · intro options
    cases h : jsIncludes options.aiModelConfig.provider.id "pro" with
    | true => constructor <;> simp [resolveModelName, h]
    | false => constructor <;> simp [resolveModelName, h]
  · intro ui
    exact ⟨rfl, rfl⟩

/-- Claim C7: the prompt sent to the model is built by a pure function of
the source code and the options, contains the literal identifier of the
target framework, assertion library, code language and generation
strategy, contains the custom instructions when they are a non-empty
string and the placeholder "None" when they are empty or absent, and
contains the source code verbatim. -/
theorem prompt_builder_spec (code : String) (options : TestGenerationOptions) :
    containsStr (fullPrompt code options) options.targetFramework.id
    ∧ containsStr (fullPrompt code options) options.assertionLibrary.id
    ∧ containsStr (fullPrompt code options) options.codeLanguage.id
    ∧ containsStr (fullPrompt code options) options.generationStrategy.id
    ∧ containsStr (fullPrompt code options) (orNone options.customPromptInstructions)
    ∧ (∀ s : String, options.customPromptInstructions = some s → s ≠ "" →
        containsStr (fullPrompt code options) s)
    ∧ (options.customPromptInstructions = some "" ∨ options.customPromptInstructions = none →
        containsStr (fullPrompt code options) "None")
    ∧ containsStr (fullPrompt code options) code := by
  have base : ∀ {p : String}, p ∈ systemPromptParts options →
      containsStr (fullPrompt code options) p := by
    intro p hp
    show containsStr (buildSystemPrompt options ++ "\n\n" ++ buildUserPrompt code) p
    exact cL (cL (mem_concatParts (systemPromptParts options) hp))
  have hcustom : containsStr (fullPrompt code options) (orNone options.customPromptInstructions) :=
    base (by simp [systemPromptParts])
  refine ⟨base (by simp [systemPromptParts]), base (by simp [systemPromptParts]),
    base (by simp [systemPromptParts]), base (by simp [systemPromptParts]),
    hcustom, ?_, ?_, ?_⟩
  · intro s hs hne
    rw [hs] at hcustom
    simpa [orNone, hne] using hcustom
  · intro hsome
    rcases hsome with hs | hs <;> rw [hs] at hcustom <;> simpa [orNone] using hcustom
  · show containsStr (buildSystemPrompt options ++ "\n\n" ++ buildUserPrompt code) code
    refine cR ?_
    show containsStr ("Generate unit tests for the following code:\n\n" ++ code) code
    exact cR (cRefl code)

/-- Claim C7 witness: at a concrete source text and concrete options the
prompt contains the non-empty custom instructions, and with emptied
instructions it contains the placeholder "None". -/
theorem prompt_builder_spec_witness :
    containsStr
      (fullPrompt "const x = 1"
        (buildOptions ⟨TestFramework.jest, AssertionLibrary.expect, CodeLanguage.typescript,
          [], true, true, AiModelProvider.geminiFlash, GenerationStrategy.hybrid,
          "Focus on security"⟩))
      "Focus on security"
    ∧ containsStr
      (fullPrompt "const x = 1"
        (buildOptions ⟨TestFramework.jest, AssertionLibrary.expect, CodeLanguage.typescript,
          [], true, true, AiModelProvider.geminiFlash, GenerationStrategy.hybrid, ""⟩))
      "None" := by
  constructor
  · exact (prompt_builder_spec "const x = 1" _).2.2.2.2.2.1 "Focus on security" rfl (by decide)
  · exact (prompt_builder_spec "const x = 1" _).2.2.2.2.2.2.1 (Or.inl rfl)

/-- Claim C8 counterexample: the download/copy transform is not
idempotent; on "a``````" one application yields "a```" and a second
application strips further, yielding "a". -/
theorem clean_code_idempotence_cex :
    cleanCodeForDownload (cleanCodeForDownload "a``````") ≠ cleanCodeForDownload "a``````" := by
  decide

/-- Claim C8 (amended): the download/copy transform is idempotent on every
input whose transformed output neither still starts with a three-backtick
fence nor still ends with one; an output that retains a fence marker (as
for "a``````") is stripped further by a second application. -/
theorem clean_code_idempotence_amended (s : String)
    (h1 : listIsPrefixOf fenceTicks (cleanCodeForDownload s).data = false)
    (h2 : endsWithTicks (cleanCodeForDownload s).data = false) :
    cleanCodeForDownload (cleanCodeForDownload s) = cleanCodeForDownload s := by
  have hd : (cleanCodeForDownload s).data
      = jsTrim (stripTrailingFence (stripLeadingFence s.data)) := rfl
  show String.mk (jsTrim (stripTrailingFence (stripLeadingFence (cleanCodeForDownload s).data)))
      = cleanCodeForDownload s
  rw [stripLeadingFence_of_not _ h1, stripTrailingFence_of_not _ h2, hd, jsTrim_idem]
  rfl

/-- Claim C8 witness: the transformed output of a fully fenced input
retains no fence marker, and re-applying the transform leaves it
unchanged. -/
theorem clean_code_idempotence_amended_witness :
    listIsPrefixOf fenceTicks (cleanCodeForDownload "```ts\nx\n```").data = false
    ∧ endsWithTicks (cleanCodeForDownload "```ts\nx\n```").data = false
    ∧ cleanCodeForDownload (cleanCodeForDownload "```ts\nx\n```")
        = cleanCodeForDownload "```ts\nx\n```" :=
  ⟨by decide, by decide, clean_code_idempotence_amended "```ts\nx\n```" (by decide) (by decide)⟩

/-- Claim C9 counterexample: on the fallback path the report's
`externalReportUrls` field is absent (the fallback object literal carries
no such entry), not the empty list. -/
theorem analysis_urls_cex :
    ¬ ((analyzeCodeWithGemini AnalysisCallOutcome.apiError).dependencies = []
      ∧ (analyzeCodeWithGemini AnalysisCallOutcome.apiError).externalReportUrls = some []) := by
  intro h
  exact absurd h.2 (by decide)

/-- Claim C9 (amended): every report has its `dependencies` field equal to
the empty list, filled in locally; `externalReportUrls` is the empty list
on the success path but absent (undefined) on the fallback path. -/
theorem analysis_local_fields_amended :
    (∀ data : AnalysisData,
      (analyzeCodeWithGemini (AnalysisCallOutcome.parsed data)).dependencies = []
      ∧ (analyzeCodeWithGemini (AnalysisCallOutcome.parsed data)).externalReportUrls = some [])
    ∧ (analyzeCodeWithGemini AnalysisCallOutcome.apiError).dependencies = []
    ∧ (analyzeCodeWithGemini AnalysisCallOutcome.apiError).externalReportUrls = none
    ∧ (analyzeCodeWithGemini AnalysisCallOutcome.emptyResponse).dependencies = []
    ∧ (analyzeCodeWithGemini AnalysisCallOutcome.emptyResponse).externalReportUrls = none
    ∧ (analyzeCodeWithGemini AnalysisCallOutcome.malformedJson).dependencies = []
    ∧ (analyzeCodeWithGemini AnalysisCallOutcome.malformedJson).externalReportUrls = none :=
  ⟨fun _ => ⟨rfl, rfl⟩, rfl, rfl, rfl, rfl, rfl, rfl⟩

/-- Claim C10: every options value built by the UI has `includeStubs`
false, `generateNegativeTests` equal to `generateEdgeCases`, the model
name equal to the provider identifier, temperature 0.7, topP 0.95 and
maxTokens 4096 — no request with other combinations of these fields can
be produced. -/
theorem options_invariants_spec (ui : UiSelections) :
    (buildOptions ui).includeStubs = false
    ∧ (buildOptions ui).generateNegativeTests = (buildOptions ui).generateEdgeCases
    ∧ (buildOptions ui).aiModelConfig.modelName = (buildOptions ui).aiModelConfig.provider.id
    ∧ (buildOptions ui).aiModelConfig.temperature = (0.7 : ℚ)
    ∧ (buildOptions ui).aiModelConfig.topP = (0.95 : ℚ)
    ∧ (buildOptions ui).aiModelConfig.maxTokens = 4096 :=
  ⟨rfl, rfl, rfl, rfl, rfl, rfl⟩

end CodeGenesis
